import Mathlib

/-!
Shallow embedding of the gym-backend core (src/main.py, src/schemas.py).

The backing store is a Mongo-style document database.  We model it as an
append-only list of (collection name, document) pairs together with a
counter that generates fresh ObjectIds.  ObjectIds are modelled as natural
numbers; their client-facing string form is `toString`, and `ObjectId(s)`
(which raises on a malformed string) accepts exactly the non-empty digit
strings (`objectId?`).

`create_document` and `get_documents` live in `database.py`, which is
imported by src/main.py but is not part of the sources; those two
definitions are modelled from the spec (§4.1) and are marked as such.
Everything else is translated directly from src/main.py and src/schemas.py.
-/

/-- A stored field value.  Python `None` is `vNull`; Python floats (price,
amount) are modelled as rationals since the program never computes with
them; lists of strings appear only as trainer specialties. -/
inductive Value where
  | vStr : String → Value
  | vInt : Int → Value
  | vRat : Rat → Value
  | vBool : Bool → Value
  | vNull : Value
  | vStrList : List String → Value
deriving DecidableEq

/-- The entity fields of a document, in insertion order (a Python dict). -/
abbrev Rec := List (String × Value)

/-- One persisted document: a system-generated ObjectId plus entity fields. -/
structure Doc where
  oid : Nat
  fields : Rec
deriving DecidableEq

/-- The whole document store: documents tagged with their collection name,
in insertion order, plus the counter generating fresh ObjectIds. -/
structure DB where
  docs : List (String × Doc)
  nextId : Nat
deriving DecidableEq

/-- The documents of one collection, in insertion order. -/
def colDocs (db : DB) (coll : String) : List Doc :=
  (db.docs.filter (fun p => p.1 == coll)).map (fun p => p.2)

/-- Mongo exact-match filter semantics: every field/value pair of the query
must be present in the document's entity fields. -/
def docMatches (d : Doc) (query : Rec) : Bool :=
  query.all (fun kv => d.fields.lookup kv.1 == some kv.2)

/-- `collection.count_documents(query)`. -/
def count_documents (db : DB) (coll : String) (query : Rec) : Nat :=
  ((colDocs db coll).filter (fun d => docMatches d query)).length

/-- `collection.find_one({"_id": ObjectId(oid)})`: first document of the
collection with the given ObjectId. -/
def find_one_by_id (db : DB) (coll : String) (oid : Nat) : Option Doc :=
  (colDocs db coll).find? (fun d => d.oid == oid)

/-- `collection.find_one({field: v})`: first document with that field value. -/
def find_one_by_field (db : DB) (coll : String) (field : String) (v : Value) : Option Doc :=
  (colDocs db coll).find? (fun d => d.fields.lookup field == some v)

/-- `ObjectId(s)` raises on a malformed string.  ObjectIds being modelled
as naturals, a well-formed identifier string is a non-empty digit string and
parses back to the natural it denotes; anything else is malformed. -/
def objectId? (s : String) : Option Nat :=
  if !s.data.isEmpty && s.data.all Char.isDigit then
    some (s.data.foldl (fun n c => n * 10 + (c.toNat - 48)) 0)
  else none

/-- Errors surfaced by the endpoints (`HTTPException`s in src/main.py plus
the service-level storage failure of spec §4.1/§7). -/
inductive ApiError where
  /-- 500 "Database not configured" / spec `StorageUnavailable`. -/
  | storageUnavailable
  /-- 400 "Class is full" (src/main.py line 123). -/
  | classFull
  /-- 404 "Member not found..." (src/main.py line 54). -/
  | notFound
  /-- Pydantic schema validation failure (src/schemas.py field bounds). -/
  | validationError
  /-- Unhandled exception in a handler (500). -/
  | internalError
deriving DecidableEq

/-- Insert a validated record as a new document, assigning the next
system-generated identifier; returns the identifier normalized to a string
together with the updated store. -/
def DB.insertDoc (db : DB) (coll : String) (fields : Rec) : String × DB :=
  (toString db.nextId,
   { docs := db.docs ++ [(coll, { oid := db.nextId, fields := fields })],
     nextId := db.nextId + 1 })

/-- Modelled from the spec: `create_document(collectionName, record)` lives in
`database.py`, which is not among the sources.  Per §4.1 it assigns the record
a system-generated unique identifier, appends it as a new document in the
named collection, returns the identifier as an opaque string, and fails with
`StorageUnavailable` when no connection to the backing store exists. -/
def create_document (coll : String) (fields : Rec) (db? : Option DB) :
    Except ApiError (String × DB) :=
  match db? with
  | none => .error .storageUnavailable
  | some db => .ok (db.insertDoc coll fields)

/-- Modelled from the spec: `get_documents(collectionName, filter?)` lives in
`database.py`, which is not among the sources.  Per §4.1 it returns every
document of the collection matching the exact-match filter, in storage-native
order, and fails with `StorageUnavailable` when no connection exists.  (The
string normalization of `_id` happens in the endpoints of src/main.py.) -/
def get_documents (coll : String) (query : Rec) (db? : Option DB) :
    Except ApiError (List Doc) :=
  match db? with
  | none => .error .storageUnavailable
  | some db => .ok ((colDocs db coll).filter (fun d => docMatches d query))

/-- `it["_id"] = str(it["_id"])`: a returned document with its identifier
normalized to a plain string field. -/
def serializeDoc (d : Doc) : Rec :=
  ("_id", Value.vStr (toString d.oid)) :: d.fields

/-- Python truthiness of an optional string: `None` and `""` are falsy.
Used by `if member_id:` style filter guards and `if not req.full_name:`. -/
def strTruthy : Option String → Bool
  | none => false
  | some s => !s.data.isEmpty

/-- An optional string stored as a field value (`None` becomes null). -/
def optStr : Option String → Value
  | none => .vNull
  | some s => .vStr s

/-- The result of one endpoint call: the response (or error) together with
the store after the call (`none` when no connection exists). -/
abbrev ApiResult (α : Type) := Except ApiError α × Option DB

/-- `schemas.Member`: required full_name and email, optional rest,
is_active defaulting to True. -/
def memberRec (full_name email : String) (phone dob goals plan_id : Option String) : Rec :=
  [("full_name", .vStr full_name), ("email", .vStr email),
   ("phone", optStr phone), ("date_of_birth", optStr dob),
   ("goals", optStr goals), ("plan_id", optStr plan_id),
   ("is_active", .vBool true)]

/-- `schemas.Membershipplan`: price ≥ 0 and duration_months ≥ 1 are enforced
by pydantic; access_level must be an actual string (None is rejected). -/
def membershipplanRec? (title : String) (price : Rat) (duration_months : Int)
    (access_level description : Option String) : Option Rec :=
  match access_level with
  | none => none
  | some lvl =>
    if price < 0 ∨ duration_months < 1 then none
    else some [("title", .vStr title), ("price", .vRat price),
               ("duration_months", .vInt duration_months),
               ("access_level", .vStr lvl), ("description", optStr description)]

/-- `schemas.Gymclass`: capacity ≥ 1 is enforced by pydantic (`ge=1`). -/
def gymclassRec? (title : String) (trainer_id : Option String)
    (start_time end_time : String) (capacity : Int) (location : Option String) : Option Rec :=
  if capacity < 1 then none
  else some [("title", .vStr title), ("trainer_id", optStr trainer_id),
             ("start_time", .vStr start_time), ("end_time", .vStr end_time),
             ("capacity", .vInt capacity), ("location", optStr location)]

/-- `schemas.Booking`: member_id, class_id and a status string. -/
def bookingRec (member_id class_id status : String) : Rec :=
  [("member_id", .vStr member_id), ("class_id", .vStr class_id),
   ("status", .vStr status)]

/-- `schemas.Workoutlog`: duration_minutes ≥ 0 and calories_burned ≥ 0
(when given) are enforced by pydantic. -/
def workoutlogRec? (member_id date workout_name : String) (duration_minutes : Int)
    (calories_burned : Option Int) (notes : Option String) : Option Rec :=
  if duration_minutes < 0 then none
  else
    match calories_burned with
    | some c =>
      if c < 0 then none
      else some [("member_id", .vStr member_id), ("date", .vStr date),
                 ("workout_name", .vStr workout_name),
                 ("duration_minutes", .vInt duration_minutes),
                 ("calories_burned", .vInt c), ("notes", optStr notes)]
    | none =>
      some [("member_id", .vStr member_id), ("date", .vStr date),
            ("workout_name", .vStr workout_name),
            ("duration_minutes", .vInt duration_minutes),
            ("calories_burned", .vNull), ("notes", optStr notes)]

/-- `schemas.Checkin`. -/
def checkinRec (member_id : String) (timestamp : Option String) : Rec :=
  [("member_id", .vStr member_id), ("timestamp", optStr timestamp)]

/-- `schemas.Payment`: amount ≥ 0 enforced; currency and status must be
actual strings (None is rejected). -/
def paymentRec? (member_id : String) (plan_id : Option String) (amount : Rat)
    (currency status paid_at : Option String) : Option Rec :=
  match currency, status with
  | some cur, some st =>
    if amount < 0 then none
    else some [("member_id", .vStr member_id), ("plan_id", optStr plan_id),
               ("amount", .vRat amount), ("currency", .vStr cur),
               ("status", .vStr st), ("paid_at", optStr paid_at)]
  | _, _ => none

/-- `schemas.Trainer`. -/
def trainerRec (full_name : String) (specialties : List String)
    (bio email : Option String) : Rec :=
  [("full_name", .vStr full_name), ("specialties", .vStrList specialties),
   ("bio", optStr bio), ("email", optStr email)]

/-- `POST /auth/login` request body (src/main.py lines 40-42). -/
structure AuthRequest where
  full_name : Option String := none
  email : String
deriving DecidableEq

/-- `POST /auth/login` (src/main.py lines 44-59): look the member up by
email; if absent and a (truthy) full_name was given, create the member and
return it; otherwise 404. -/
def login (req : AuthRequest) (db? : Option DB) : ApiResult Rec :=
  match db? with
  | none => (.error .storageUnavailable, db?)
  | some db =>
    match find_one_by_field db "member" "email" (.vStr req.email) with
    | some member => (.ok (serializeDoc member), some db)
    | none =>
      if strTruthy req.full_name then
        match create_document "member"
            (memberRec (req.full_name.getD "") req.email none none none none) (some db) with
        | .error e => (.error e, some db)
        | .ok (_, db1) =>
          match find_one_by_field db1 "member" "email" (.vStr req.email) with
          | some created => (.ok (serializeDoc created), some db1)
          | none => (.error .internalError, some db1)
      else (.error .notFound, some db)

/-- `POST /plans` request body (src/main.py lines 69-74). -/
structure PlanCreate where
  title : String
  price : Rat
  duration_months : Int
  access_level : Option String := some "standard"
  description : Option String := none
deriving DecidableEq

/-- `POST /plans` (src/main.py lines 76-80). -/
def create_plan (data : PlanCreate) (db? : Option DB) : ApiResult String :=
  match membershipplanRec? data.title data.price data.duration_months
      data.access_level data.description with
  | none => (.error .validationError, db?)
  | some fields =>
    match create_document "membershipplan" fields db? with
    | .error e => (.error e, db?)
    | .ok (pid, db1) => (.ok pid, some db1)

/-- `POST /classes` request body (src/main.py lines 90-96); capacity
defaults to 20 when the request omits it. -/
structure ClassCreate where
  title : String
  trainer_id : Option String := none
  start_time : String
  end_time : String
  capacity : Int := 20
  location : Option String := none
deriving DecidableEq

/-- `POST /classes` (src/main.py lines 98-102). -/
def create_class (data : ClassCreate) (db? : Option DB) : ApiResult String :=
  match gymclassRec? data.title data.trainer_id data.start_time data.end_time
      data.capacity data.location with
  | none => (.error .validationError, db?)
  | some fields =>
    match create_document "gymclass" fields db? with
    | .error e => (.error e, db?)
    | .ok (cid, db1) => (.ok cid, some db1)

/-- `POST /bookings` request body (src/main.py lines 105-107). -/
structure BookingRequest where
  member_id : String
  class_id : String
deriving DecidableEq

/-- src/main.py lines 115-118: fetch the class for capacity; a malformed
ObjectId raises inside the `try` and yields `class_obj = None`. -/
def class_lookup (db : DB) (class_id : String) : Option Doc :=
  match objectId? class_id with
  | none => none
  | some oid => find_one_by_id db "gymclass" oid

/-- src/main.py line 119: `class_obj.get("capacity", 9999) if class_obj else
9999`.  A stored non-integer capacity also falls back to 9999 here; no
operation of the API can produce one (`gymclassRec?` always stores `vInt`). -/
def effective_capacity (db : DB) (class_id : String) : Int :=
  match class_lookup db class_id with
  | some d =>
    match d.fields.lookup "capacity" with
    | some (.vInt n) => n
    | _ => 9999
  | none => 9999

/-- src/main.py line 121: count bookings for this class with status booked. -/
def count_booked (db : DB) (class_id : String) : Nat :=
  count_documents db "booking" [("class_id", .vStr class_id), ("status", .vStr "booked")]

/-- src/main.py lines 113-126, given a live connection: the booking
admission check — reject with 400 "Class is full" when the booked count has
reached the effective capacity, otherwise insert a new booking with status
booked (the `create_document` call cannot fail here, the connection having
already been checked on line 111). -/
def book_class_db (req : BookingRequest) (db : DB) : Except ApiError String × DB :=
  let capacity := effective_capacity db req.class_id
  let current := count_booked db req.class_id
  if (current : Int) ≥ capacity then (.error .classFull, db)
  else
    let inserted := db.insertDoc "booking" (bookingRec req.member_id req.class_id "booked")
    (.ok inserted.1, inserted.2)

/-- `POST /bookings` (src/main.py lines 109-126): 500 when the store is not
configured (line 111), otherwise the admission check `book_class_db`. -/
def book_class (req : BookingRequest) (db? : Option DB) : ApiResult String :=
  match db? with
  | none => (.error .storageUnavailable, db?)
  | some db => ((book_class_db req db).1, some (book_class_db req db).2)

/-- `GET /bookings` (src/main.py lines 128-138): optional member_id/class_id
exact-match filters, skipped when the parameter is absent or falsy. -/
def list_bookings (member_id class_id : Option String) (db? : Option DB) : ApiResult (List Rec) :=
  let query : Rec :=
    (if strTruthy member_id then [("member_id", Value.vStr (member_id.getD ""))] else [])
      ++ (if strTruthy class_id then [("class_id", Value.vStr (class_id.getD ""))] else [])
  match get_documents "booking" query db? with
  | .error e => (.error e, db?)
  | .ok ds => (.ok (ds.map serializeDoc), db?)

/-- `POST /workouts` request body (src/main.py lines 141-147). -/
structure WorkoutLogCreate where
  member_id : String
  date : String
  workout_name : String
  duration_minutes : Int
  calories_burned : Option Int := none
  notes : Option String := none
deriving DecidableEq

/-- `POST /workouts` (src/main.py lines 149-153). -/
def create_workout (data : WorkoutLogCreate) (db? : Option DB) : ApiResult String :=
  match workoutlogRec? data.member_id data.date data.workout_name
      data.duration_minutes data.calories_burned data.notes with
  | none => (.error .validationError, db?)
  | some fields =>
    match create_document "workoutlog" fields db? with
    | .error e => (.error e, db?)
    | .ok (wid, db1) => (.ok wid, some db1)

/-- `GET /workouts` (src/main.py lines 155-165). -/
def list_workouts (member_id date : Option String) (db? : Option DB) : ApiResult (List Rec) :=
  let query : Rec :=
    (if strTruthy member_id then [("member_id", Value.vStr (member_id.getD ""))] else [])
      ++ (if strTruthy date then [("date", Value.vStr (date.getD ""))] else [])
  match get_documents "workoutlog" query db? with
  | .error e => (.error e, db?)
  | .ok ds => (.ok (ds.map serializeDoc), db?)

/-- `POST /checkins` request body (src/main.py lines 168-169). -/
structure CheckInRequest where
  member_id : String
deriving DecidableEq

/-- `POST /checkins` (src/main.py lines 171-176); `now_iso` is the server
timestamp `datetime.now(timezone.utc).isoformat()`, passed explicitly. -/
def check_in (req : CheckInRequest) (now_iso : String) (db? : Option DB) : ApiResult String :=
  match create_document "checkin" (checkinRec req.member_id (some now_iso)) db? with
  | .error e => (.error e, db?)
  | .ok (cid, db1) => (.ok cid, some db1)

/-- `GET /checkins` (src/main.py lines 178-184). -/
def list_checkins (member_id : Option String) (db? : Option DB) : ApiResult (List Rec) :=
  let query : Rec :=
    if strTruthy member_id then [("member_id", Value.vStr (member_id.getD ""))] else []
  match get_documents "checkin" query db? with
  | .error e => (.error e, db?)
  | .ok ds => (.ok (ds.map serializeDoc), db?)

/-- `POST /payments` request body (src/main.py lines 187-192). -/
structure PaymentCreate where
  member_id : String
  plan_id : Option String := none
  amount : Rat
  currency : Option String := some "USD"
  status : Option String := some "paid"
deriving DecidableEq

/-- `POST /payments` (src/main.py lines 194-199); `now_iso` is the server
timestamp passed explicitly. -/
def create_payment (data : PaymentCreate) (now_iso : String) (db? : Option DB) : ApiResult String :=
  match paymentRec? data.member_id data.plan_id data.amount
      data.currency data.status (some now_iso) with
  | none => (.error .validationError, db?)
  | some fields =>
    match create_document "payment" fields db? with
    | .error e => (.error e, db?)
    | .ok (pid, db1) => (.ok pid, some db1)

/-- `GET /payments` (src/main.py lines 201-207). -/
def list_payments (member_id : Option String) (db? : Option DB) : ApiResult (List Rec) :=
  let query : Rec :=
    if strTruthy member_id then [("member_id", Value.vStr (member_id.getD ""))] else []
  match get_documents "payment" query db? with
  | .error e => (.error e, db?)
  | .ok ds => (.ok (ds.map serializeDoc), db?)

/-- `POST /trainers` request body (src/main.py lines 217-221). -/
structure TrainerCreate where
  full_name : String
  specialties : Option (List String) := none
  bio : Option String := none
  email : Option String := none
deriving DecidableEq

/-- `POST /trainers` (src/main.py lines 223-227): `specialties or []`. -/
def create_trainer (data : TrainerCreate) (db? : Option DB) : ApiResult String :=
  match create_document "trainer"
      (trainerRec data.full_name (data.specialties.getD []) data.bio data.email) db? with
  | .error e => (.error e, db?)
  | .ok (tid, db1) => (.ok tid, some db1)

/-- `GET /trainers` (src/main.py lines 210-215). -/
def list_trainers (db? : Option DB) : ApiResult (List Rec) :=
  match get_documents "trainer" [] db? with
  | .error e => (.error e, db?)
  | .ok ds => (.ok (ds.map serializeDoc), db?)

/-- `POST /members` request body (src/main.py lines 237-243). -/
structure MemberCreate where
  full_name : String
  email : String
  phone : Option String := none
  date_of_birth : Option String := none
  goals : Option String := none
  plan_id : Option String := none
deriving DecidableEq

/-- `POST /members` (src/main.py lines 245-249). -/
def create_member (data : MemberCreate) (db? : Option DB) : ApiResult String :=
  match create_document "member"
      (memberRec data.full_name data.email data.phone data.date_of_birth
        data.goals data.plan_id) db? with
  | .error e => (.error e, db?)
  | .ok (mid, db1) => (.ok mid, some db1)

/-- `GET /members` (src/main.py lines 230-235). -/
def list_members (db? : Option DB) : ApiResult (List Rec) :=
  match get_documents "member" [] db? with
  | .error e => (.error e, db?)
  | .ok ds => (.ok (ds.map serializeDoc), db?)

/-- `GET /plans` (src/main.py lines 62-67). -/
def list_plans (db? : Option DB) : ApiResult (List Rec) :=
  match get_documents "membershipplan" [] db? with
  | .error e => (.error e, db?)
  | .ok ds => (.ok (ds.map serializeDoc), db?)

/-- `GET /classes` (src/main.py lines 83-88). -/
def list_classes (db? : Option DB) : ApiResult (List Rec) :=
  match get_documents "gymclass" [] db? with
  | .error e => (.error e, db?)
  | .ok ds => (.ok (ds.map serializeDoc), db?)

/-- The store after `k` sequential `POST /bookings` calls against class
`cid`, the `i`-th made by member `member i`, starting from `db`. -/
def book_n (cid : String) (member : Nat → String) : Nat → DB → DB
  | 0, db => db
  | k + 1, db => (book_class_db ⟨member k, cid⟩ (book_n cid member k db)).2

/-- The response of the `(k+1)`-th sequential `POST /bookings` call against
class `cid` (0-indexed: call `k` runs on the store left by calls `0..k-1`). -/
def book_step (cid : String) (member : Nat → String) (k : Nat) (db : DB) :
    Except ApiError String :=
  (book_class ⟨member k, cid⟩ (some (book_n cid member k db))).1

/-- The admission decision alone: did `POST /bookings` admit the booking? -/
def booking_admitted (req : BookingRequest) (db : DB) : Bool :=
  match (book_class req (some db)).1 with
  | .ok _ => true
  | .error _ => false

/-- Modelled from the spec: the §4.1 `list` operation — `get_documents` of
`database.py` composed with the endpoints' `_id`-to-string normalization
("each document's identifier normalized to a plain string"). -/
def list_documents (coll : String) (query : Rec) (db? : Option DB) :
    Except ApiError (List Rec) :=
  match get_documents coll query db? with
  | .error e => .error e
  | .ok ds => .ok (ds.map serializeDoc)

/-- `new` extends `old` append-only: every document present before is still
present, unchanged, at its old position, and the id counter never moves
backwards. -/
def dbAppendOnly (old new : Option DB) : Bool :=
  match old, new with
  | none, new => new == none
  | some o, some n => o.docs.isPrefixOf n.docs && o.nextId ≤ n.nextId
  | some _, none => false

/-! Concrete stores used by the closed counterexample and witness theorems. -/

def c3CexDB : DB :=
  { docs := List.replicate 9999 ("booking", { oid := 0, fields := bookingRec "m1" "x" "booked" }),
    nextId := 0 }

def c6CexDB0 : DB :=
  { docs := [("booking", { oid := 0, fields := bookingRec "m1" "c9" "booked" })],
    nextId := 1 }

def c6CexDB1 : DB :=
  { docs := [("booking", { oid := 0, fields := bookingRec "m1" "c9" "booked" }),
             ("booking", { oid := 1, fields := bookingRec "m1" "c9" "booked" })],
    nextId := 2 }

def c1WitDoc : Doc :=
  { oid := 5, fields :=
      [("title", Value.vStr "Yoga"), ("trainer_id", Value.vNull),
       ("start_time", Value.vStr "2026-01-01T10:00:00"),
       ("end_time", Value.vStr "2026-01-01T11:00:00"),
       ("capacity", Value.vInt 2), ("location", Value.vNull)] }

def c1WitDB : DB := { docs := [("gymclass", c1WitDoc)], nextId := 6 }

def c2WitDB : DB :=
  { docs := [("gymclass", { oid := 0, fields := [("capacity", Value.vInt 1)] }),
             ("booking", { oid := 1, fields := bookingRec "m1" "0" "booked" })],
    nextId := 2 }

def c4WitDB : DB :=
  { docs := [("gymclass", { oid := 0, fields := [("capacity", Value.vInt 1)] })],
    nextId := 1 }

def c5WitDB1 : DB :=
  { docs := [("gymclass", { oid := 0, fields := [("capacity", Value.vInt 1)] })],
    nextId := 1 }

def c5WitDB2 : DB :=
  { docs := [("gymclass", { oid := 0, fields := [("capacity", Value.vInt 1)] }),
             ("booking", { oid := 1, fields := bookingRec "m1" "0" "canceled" }),
             ("booking", { oid := 2, fields := bookingRec "m1" "other" "booked" })],
    nextId := 3 }

def c10WitRec : Rec :=
  [("title", Value.vStr "Yoga"), ("trainer_id", Value.vNull),
   ("start_time", Value.vStr "s"), ("end_time", Value.vStr "e"),
   ("capacity", Value.vInt 3), ("location", Value.vNull)]

def c10WitDB : DB :=
  { docs := [("gymclass", { oid := 0, fields := c10WitRec })], nextId := 1 }

/-! Theorems. -/

theorem colDocs_insertDoc (db : DB) (c c' : String) (f : Rec) :
    colDocs (db.insertDoc c f).2 c' =
      colDocs db c' ++ if c == c' then [⟨db.nextId, f⟩] else [] := by
  by_cases h : c == c' <;>
    simp [colDocs, DB.insertDoc, List.filter_append, h]

theorem docMatches_bookingRec (n : Nat) (m cid st : String) :
    docMatches ⟨n, bookingRec m cid st⟩
      [("class_id", Value.vStr cid), ("status", Value.vStr st)] = true := by
  simp [docMatches, bookingRec, List.lookup]

theorem count_booked_insert (db : DB) (m cid : String) :
    count_booked (db.insertDoc "booking" (bookingRec m cid "booked")).2 cid =
      count_booked db cid + 1 := by
  simp [count_booked, count_documents, colDocs_insertDoc, List.filter_append,
    docMatches_bookingRec]

theorem toDigitsCore_length_le (b : Nat) :
    ∀ (f n : Nat) (l : List Char), l.length ≤ (Nat.toDigitsCore b f n l).length := by
  intro f
  induction f with
  | zero => intro n l; simp [Nat.toDigitsCore]
  | succ f ih =>
    intro n l
    simp only [Nat.toDigitsCore]
    by_cases h : n / b = 0
    · simp [h]
    · simp only [h, if_false]
      calc l.length ≤ (Nat.digitChar (n % b) :: l).length := by simp
        _ ≤ _ := ih _ _

theorem toString_nat_ne_empty (n : Nat) : toString n ≠ "" := by
  show Nat.repr n ≠ ""
  unfold Nat.repr Nat.toDigits
  intro hcontra
  have hlen : 1 ≤ (Nat.toDigitsCore 10 (n + 1) n []).length := by
    simp only [Nat.toDigitsCore]
    by_cases h : n / 10 = 0
    · simp [h]
    · simp only [h, if_false]
      calc 1 = [Nat.digitChar (n % 10)].length := by simp
        _ ≤ _ := toDigitsCore_length_le 10 _ _ _
  rw [List.asString] at hcontra
  have hnil : (Nat.toDigitsCore 10 (n + 1) n []) = [] := by
    have := congrArg String.data hcontra
    simpa using this
  rw [hnil] at hlen
  simp at hlen

theorem dbAppendOnly_refl (db? : Option DB) : dbAppendOnly db? db? = true := by
  cases db? with
  | none => simp [dbAppendOnly]
  | some db => simp [dbAppendOnly, List.isPrefixOf_iff_prefix]

theorem dbAppendOnly_insert (db : DB) (c : String) (f : Rec) :
    dbAppendOnly (some db) (some (db.insertDoc c f).2) = true := by
  simp [dbAppendOnly, DB.insertDoc, List.isPrefixOf_iff_prefix,
    List.prefix_append]

theorem count_booked_replicate (nrep oidv nid : Nat) (m cid : String) :
    count_booked { docs := List.replicate nrep ("booking",
        { oid := oidv, fields := bookingRec m cid "booked" }), nextId := nid } cid = nrep := by
  simp [count_booked, count_documents, colDocs, List.filter_replicate,
    List.map_replicate, docMatches_bookingRec]

/-- C3 counterexample: against the malformed class identifier "x" with 9999
booked bookings already stored for it, the booking attempt is rejected with
ClassFull — the fallback capacity is 9999, not unbounded, refuting "the call
succeeds regardless of how many booked bookings already exist". -/
theorem c3_counterexample_9999_bookings :
    (book_class { member_id := "m2", class_id := "x" } (some c3CexDB)).1 = .error .classFull ∧
    objectId? "x" = none := by
  have hcount : count_booked c3CexDB "x" = 9999 := count_booked_replicate 9999 0 0 "m1" "x"
  have hx : objectId? "x" = none := by decide
  have hcap : effective_capacity c3CexDB "x" = 9999 := by
    simp [effective_capacity, class_lookup, hx]
  refine ⟨?_, hx⟩
  simp [book_class, book_class_db, hcap, hcount]

theorem class_lookup_insert_booking (db : DB) (f : Rec) (cid : String) :
    class_lookup (db.insertDoc "booking" f).2 cid = class_lookup db cid := by
  unfold class_lookup find_one_by_id
  rw [colDocs_insertDoc]
  simp

theorem effective_capacity_insert_booking (db : DB) (f : Rec) (cid : String) :
    effective_capacity (db.insertDoc "booking" f).2 cid = effective_capacity db cid := by
  unfold effective_capacity
  rw [class_lookup_insert_booking]

theorem book_n_invariant (db : DB) (cid : String) (member : Nat → String) (C : Int)
    (hcap : effective_capacity db cid = C)
    (hcount : count_booked db cid = 0) :
    ∀ k : Nat, (k : Int) ≤ C →
      effective_capacity (book_n cid member k db) cid = C ∧
      count_booked (book_n cid member k db) cid = k := by
  intro k
  induction k with
  | zero => intro _; exact ⟨hcap, hcount⟩
  | succ k ih =>
    intro hk
    obtain ⟨h1, h2⟩ := ih (by omega)
    have hlt : ¬((count_booked (book_n cid member k db) cid : Int) ≥
        effective_capacity (book_n cid member k db) cid) := by
      rw [h1, h2]; omega
    have hstep : book_n cid member (k + 1) db =
        ((book_n cid member k db).insertDoc "booking"
          (bookingRec (member k) cid "booked")).2 := by
      show (book_class_db _ _).2 = _
      simp only [book_class_db]
      rw [if_neg hlt]
    rw [hstep]
    exact ⟨by rw [effective_capacity_insert_booking, h1],
           by rw [count_booked_insert, h2]⟩

/-- C1: for a stored gym class of capacity C ≥ 1 with no booked bookings,
the first C sequential booking calls all succeed and the (C+1)-th is
rejected with ClassFull. -/
theorem c1_exactly_capacity_bookings (db : DB) (cid : String) (member : Nat → String)
    (C oid : Nat) (cdoc : Doc)
    (hC : 1 ≤ C)
    (hid : objectId? cid = some oid)
    (hfind : find_one_by_id db "gymclass" oid = some cdoc)
    (hcapf : cdoc.fields.lookup "capacity" = some (Value.vInt (C : Int)))
    (hcount : count_booked db cid = 0) :
    (∀ k, k < C → ∃ id, book_step cid member k db = .ok id) ∧
    book_step cid member C db = .error .classFull := by
  have hcap : effective_capacity db cid = (C : Int) := by
    simp [effective_capacity, class_lookup, hid, hfind, hcapf]
  constructor
  · intro k hk
    obtain ⟨h1, h2⟩ := book_n_invariant db cid member (C : Int) hcap hcount k (by omega)
    have hlt : ¬((count_booked (book_n cid member k db) cid : Int) ≥
        effective_capacity (book_n cid member k db) cid) := by
      rw [h1, h2]; omega
    refine ⟨toString (book_n cid member k db).nextId, ?_⟩
    simp [book_step, book_class, book_class_db, hlt, DB.insertDoc]
  · obtain ⟨h1, h2⟩ := book_n_invariant db cid member (C : Int) hcap hcount C (le_refl _)
    have hge : ((count_booked (book_n cid member C db) cid : Int) ≥
        effective_capacity (book_n cid member C db) cid) := by
      rw [h1, h2]
    simp [book_step, book_class, book_class_db, hge]

/-- C2: when the booked count has reached the effective capacity, the call
is rejected with ClassFull and the store is returned exactly as it was. -/
theorem c2_class_full_leaves_store_unchanged (req : BookingRequest) (db : DB)
    (h : effective_capacity db req.class_id ≤ (count_booked db req.class_id : Int)) :
    book_class req (some db) = (.error .classFull, some db) := by
  have hge : ((count_booked db req.class_id : Int) ≥ effective_capacity db req.class_id) := h
  simp [book_class, book_class_db, hge]

/-- C4: when the booked count is strictly below the effective capacity, the
call appends exactly one booking document carrying the requested member and
class with status booked, and returns its generated identifier. -/
theorem c4_success_creates_one_booking (req : BookingRequest) (db : DB)
    (h : (count_booked db req.class_id : Int) < effective_capacity db req.class_id) :
    book_class req (some db) =
      (.ok (toString db.nextId),
       some { docs := db.docs ++ [("booking",
                { oid := db.nextId,
                  fields := bookingRec req.member_id req.class_id "booked" })],
              nextId := db.nextId + 1 }) := by
  have hlt : ¬((count_booked db req.class_id : Int) ≥ effective_capacity db req.class_id) := by
    omega
  simp [book_class, book_class_db, hlt, DB.insertDoc]

/-- C5: the admission decision is a function of the gymclass collection and
the booked count for the requested class alone. -/
theorem c5_admission_depends_only_on_booked_count (req : BookingRequest) (db1 db2 : DB)
    (hg : colDocs db1 "gymclass" = colDocs db2 "gymclass")
    (hc : count_booked db1 req.class_id = count_booked db2 req.class_id) :
    booking_admitted req db1 = booking_admitted req db2 := by
  have hcap : effective_capacity db1 req.class_id = effective_capacity db2 req.class_id := by
    unfold effective_capacity class_lookup find_one_by_id
    rw [hg]
  simp only [booking_admitted, book_class, book_class_db]
  rw [hcap, hc]
  by_cases h : ((count_booked db2 req.class_id : Int) ≥ effective_capacity db2 req.class_id) <;>
    simp [h]

/-- C3 (amended): a malformed or unmatched class identifier gets the
fallback capacity 9999, so the call succeeds as long as fewer than 9999
booked bookings exist for that identifier. -/
theorem c3_missing_class_books_below_9999 (m cid : String) (db : DB)
    (hmissing : class_lookup db cid = none)
    (hcount : count_booked db cid < 9999) :
    book_class ⟨m, cid⟩ (some db) =
      (.ok (toString db.nextId),
       some { docs := db.docs ++ [("booking",
                { oid := db.nextId, fields := bookingRec m cid "booked" })],
              nextId := db.nextId + 1 }) := by
  have hcap : effective_capacity db cid = 9999 := by
    simp [effective_capacity, hmissing]
  have hlt : ¬((count_booked db cid : Int) ≥ effective_capacity db cid) := by
    rw [hcap]; omega
  simp [book_class, book_class_db, hlt, DB.insertDoc]

/-- C6 (amended): create followed by list with a filter matching the new
record returns exactly one document — the input record extended with the
non-empty generated identifier normalized to a string — provided no
pre-existing document of the collection matches the filter. -/
theorem c6_create_then_list_roundtrip (coll : String) (record query : Rec) (db : DB)
    (hq : query.all (fun kv => record.lookup kv.1 == some kv.2) = true)
    (hpre : ∀ d ∈ colDocs db coll, docMatches d query = false) :
    ∃ id db1, create_document coll record (some db) = .ok (id, db1) ∧
      list_documents coll query (some db1) = .ok [("_id", Value.vStr id) :: record] ∧
      id ≠ "" := by
  refine ⟨toString db.nextId, (db.insertDoc coll record).2, rfl, ?_, toString_nat_ne_empty _⟩
  have hnew : docMatches ⟨db.nextId, record⟩ query = true := hq
  have hcol : colDocs (db.insertDoc coll record).2 coll =
      colDocs db coll ++ [⟨db.nextId, record⟩] := by
    rw [colDocs_insertDoc]; simp
  have h1 : (colDocs db coll).filter (fun d => docMatches d query) = [] := by
    rw [List.filter_eq_nil_iff]
    intro d hd
    simp [hpre d hd]
  have h2 : [Doc.mk db.nextId record].filter (fun d => docMatches d query) =
      [⟨db.nextId, record⟩] := by
    simp [List.filter, hnew]
  simp only [list_documents, get_documents, hcol, List.filter_append, h1, h2]
  simp [serializeDoc]

/-- C6 counterexample: when a document matching the filter already exists,
create followed by list returns two documents, not exactly one. -/
theorem c6_counterexample_duplicate_record :
    ([(("member_id" : String), Value.vStr "m1")].all
      (fun kv => (bookingRec "m1" "c9" "booked").lookup kv.1 == some kv.2) = true) ∧
    create_document "booking" (bookingRec "m1" "c9" "booked") (some c6CexDB0) =
      .ok ("1", c6CexDB1) ∧
    list_documents "booking" [("member_id", Value.vStr "m1")] (some c6CexDB1) =
      .ok [serializeDoc ⟨0, bookingRec "m1" "c9" "booked"⟩,
           serializeDoc ⟨1, bookingRec "m1" "c9" "booked"⟩] := by
  refine ⟨by decide, ?_, ?_⟩ <;> rfl

/-- C7: with no connection to the backing store, create, list and the
booking admission all fail with the storage-unavailable service error,
which is distinct from the ClassFull and NotFound validation errors, and
no record is created. -/
theorem c7_storage_unavailable_distinct (coll : String) (fields query : Rec)
    (req : BookingRequest) :
    create_document coll fields none = .error .storageUnavailable ∧
    get_documents coll query none = .error .storageUnavailable ∧
    list_documents coll query none = .error .storageUnavailable ∧
    book_class req none = (.error .storageUnavailable, none) ∧
    ApiError.storageUnavailable ≠ ApiError.classFull ∧
    ApiError.storageUnavailable ≠ ApiError.notFound :=
  ⟨rfl, rfl, rfl, rfl, by decide, by decide⟩

/-- C9: an empty-string filter parameter is falsy, so the filter is dropped
exactly as when the parameter is absent, and the whole collection is
returned. -/
theorem c9_empty_string_filter_treated_as_absent (mi ci da : Option String)
    (db? : Option DB) (db : DB) :
    list_bookings (some "") ci db? = list_bookings none ci db? ∧
    list_bookings mi (some "") db? = list_bookings mi none db? ∧
    list_workouts (some "") da db? = list_workouts none da db? ∧
    list_workouts mi (some "") db? = list_workouts mi none db? ∧
    list_checkins (some "") db? = list_checkins none db? ∧
    list_payments (some "") db? = list_payments none db? ∧
    list_bookings (some "") (some "") (some db) =
      (.ok ((colDocs db "booking").map serializeDoc), some db) ∧
    list_workouts (some "") (some "") (some db) =
      (.ok ((colDocs db "workoutlog").map serializeDoc), some db) ∧
    list_checkins (some "") (some db) =
      (.ok ((colDocs db "checkin").map serializeDoc), some db) ∧
    list_payments (some "") (some db) =
      (.ok ((colDocs db "payment").map serializeDoc), some db) := by
  have hfalse : strTruthy (some "") = false := rfl
  refine ⟨rfl, rfl, rfl, rfl, rfl, rfl, ?_, ?_, ?_, ?_⟩ <;>
    simp [list_bookings, list_workouts, list_checkins, list_payments,
      get_documents, docMatches, hfalse, List.filter_true]

/-- C10: creating a gym class without specifying a capacity (the request
default 20 applies) succeeds against a configured store and stores capacity
exactly 20; and whenever class creation succeeds, the stored capacity is at
least 1. -/
theorem c10_default_capacity_twenty :
    (∀ (title st et : String) (tr loc : Option String) (db : DB),
      create_class { title := title, trainer_id := tr, start_time := st,
                     end_time := et, location := loc } (some db) =
        (.ok (toString db.nextId),
         some { docs := db.docs ++ [("gymclass",
                  { oid := db.nextId,
                    fields := [("title", Value.vStr title), ("trainer_id", optStr tr),
                               ("start_time", Value.vStr st), ("end_time", Value.vStr et),
                               ("capacity", Value.vInt 20), ("location", optStr loc)] })],
                nextId := db.nextId + 1 })) ∧
    (∀ (data : ClassCreate) (db : DB) (id : String) (dbOut : Option DB),
      create_class data (some db) = (.ok id, dbOut) →
      1 ≤ data.capacity ∧
      ∃ f, gymclassRec? data.title data.trainer_id data.start_time data.end_time
             data.capacity data.location = some f ∧
           f.lookup "capacity" = some (Value.vInt data.capacity) ∧
           dbOut = some (db.insertDoc "gymclass" f).2) := by
  constructor
  · intro title st et tr loc db
    simp [create_class, gymclassRec?, create_document, DB.insertDoc]
  · intro data db id dbOut h
    by_cases hval : data.capacity < 1
    · exfalso
      simp [create_class, gymclassRec?, hval] at h
    · have hrec : gymclassRec? data.title data.trainer_id data.start_time
          data.end_time data.capacity data.location =
          some [("title", Value.vStr data.title), ("trainer_id", optStr data.trainer_id),
                ("start_time", Value.vStr data.start_time), ("end_time", Value.vStr data.end_time),
                ("capacity", Value.vInt data.capacity), ("location", optStr data.location)] := by
        simp [gymclassRec?, hval]
      refine ⟨by omega, _, hrec, by simp [List.lookup], ?_⟩
      simp only [create_class, hrec, create_document] at h
      exact (congrArg Prod.snd h).symm

theorem dbAppendOnly_none : dbAppendOnly none none = true := rfl

theorem login_append_only (req : AuthRequest) (db? : Option DB) :
    dbAppendOnly db? (login req db?).2 = true := by
  cases db? with
  | none => simp [login, dbAppendOnly]
  | some db =>
    simp only [login]
    cases hfind : find_one_by_field db "member" "email" (.vStr req.email) with
    | some m => simp [dbAppendOnly_refl]
    | none =>
      by_cases ht : strTruthy req.full_name
      · simp only [ht, if_true, create_document]
        cases hfind2 : find_one_by_field (db.insertDoc "member"
            (memberRec (req.full_name.getD "") req.email none none none none)).2
            "member" "email" (.vStr req.email) with
        | some c => simp [hfind2, dbAppendOnly_insert]
        | none => simp [hfind2, dbAppendOnly_insert]
      · simp [ht, dbAppendOnly_refl]

theorem create_plan_append_only (data : PlanCreate) (db? : Option DB) :
    dbAppendOnly db? (create_plan data db?).2 = true := by
  cases hrec : membershipplanRec? data.title data.price data.duration_months
      data.access_level data.description with
  | none => simp [create_plan, hrec, dbAppendOnly_refl]
  | some f =>
    cases db? with
    | none => simp [create_plan, hrec, create_document, dbAppendOnly]
    | some db => simp [create_plan, hrec, create_document, dbAppendOnly_insert]

theorem create_class_append_only (data : ClassCreate) (db? : Option DB) :
    dbAppendOnly db? (create_class data db?).2 = true := by
  cases hrec : gymclassRec? data.title data.trainer_id data.start_time
      data.end_time data.capacity data.location with
  | none => simp [create_class, hrec, dbAppendOnly_refl]
  | some f =>
    cases db? with
    | none => simp [create_class, hrec, create_document, dbAppendOnly]
    | some db => simp [create_class, hrec, create_document, dbAppendOnly_insert]

theorem book_class_append_only (req : BookingRequest) (db? : Option DB) :
    dbAppendOnly db? (book_class req db?).2 = true := by
  cases db? with
  | none => simp [book_class, dbAppendOnly]
  | some db =>
    by_cases h : ((count_booked db req.class_id : Int) ≥ effective_capacity db req.class_id)
    · simp [book_class, book_class_db, h, dbAppendOnly_refl]
    · simp [book_class, book_class_db, h, dbAppendOnly_insert]

theorem create_workout_append_only (data : WorkoutLogCreate) (db? : Option DB) :
    dbAppendOnly db? (create_workout data db?).2 = true := by
  cases hrec : workoutlogRec? data.member_id data.date data.workout_name
      data.duration_minutes data.calories_burned data.notes with
  | none => simp [create_workout, hrec, dbAppendOnly_refl]
  | some f =>
    cases db? with
    | none => simp [create_workout, hrec, create_document, dbAppendOnly]
    | some db => simp [create_workout, hrec, create_document, dbAppendOnly_insert]

theorem check_in_append_only (req : CheckInRequest) (now_iso : String) (db? : Option DB) :
    dbAppendOnly db? (check_in req now_iso db?).2 = true := by
  cases db? with
  | none => simp [check_in, create_document, dbAppendOnly]
  | some db => simp [check_in, create_document, dbAppendOnly_insert]

theorem create_payment_append_only (data : PaymentCreate) (now_iso : String) (db? : Option DB) :
    dbAppendOnly db? (create_payment data now_iso db?).2 = true := by
  cases hrec : paymentRec? data.member_id data.plan_id data.amount
      data.currency data.status (some now_iso) with
  | none => simp [create_payment, hrec, dbAppendOnly_refl]
  | some f =>
    cases db? with
    | none => simp [create_payment, hrec, create_document, dbAppendOnly]
    | some db => simp [create_payment, hrec, create_document, dbAppendOnly_insert]

theorem create_trainer_append_only (data : TrainerCreate) (db? : Option DB) :
    dbAppendOnly db? (create_trainer data db?).2 = true := by
  cases db? with
  | none => simp [create_trainer, create_document, dbAppendOnly]
  | some db => simp [create_trainer, create_document, dbAppendOnly_insert]

theorem create_member_append_only (data : MemberCreate) (db? : Option DB) :
    dbAppendOnly db? (create_member data db?).2 = true := by
  cases db? with
  | none => simp [create_member, create_document, dbAppendOnly]
  | some db => simp [create_member, create_document, dbAppendOnly_insert]

theorem list_plans_append_only (db? : Option DB) :
    dbAppendOnly db? (list_plans db?).2 = true := by
  cases db? with
  | none => simp [list_plans, get_documents, dbAppendOnly]
  | some db => simp [list_plans, get_documents, dbAppendOnly_refl]

theorem list_classes_append_only (db? : Option DB) :
    dbAppendOnly db? (list_classes db?).2 = true := by
  cases db? with
  | none => simp [list_classes, get_documents, dbAppendOnly]
  | some db => simp [list_classes, get_documents, dbAppendOnly_refl]

theorem list_bookings_append_only (mi ci : Option String) (db? : Option DB) :
    dbAppendOnly db? (list_bookings mi ci db?).2 = true := by
  cases db? with
  | none => simp [list_bookings, get_documents, dbAppendOnly]
  | some db => simp [list_bookings, get_documents, dbAppendOnly_refl]

theorem list_workouts_append_only (mi da : Option String) (db? : Option DB) :
    dbAppendOnly db? (list_workouts mi da db?).2 = true := by
  cases db? with
  | none => simp [list_workouts, get_documents, dbAppendOnly]
  | some db => simp [list_workouts, get_documents, dbAppendOnly_refl]

theorem list_checkins_append_only (mi : Option String) (db? : Option DB) :
    dbAppendOnly db? (list_checkins mi db?).2 = true := by
  cases db? with
  | none => simp [list_checkins, get_documents, dbAppendOnly]
  | some db => simp [list_checkins, get_documents, dbAppendOnly_refl]

theorem list_payments_append_only (mi : Option String) (db? : Option DB) :
    dbAppendOnly db? (list_payments mi db?).2 = true := by
  cases db? with
  | none => simp [list_payments, get_documents, dbAppendOnly]
  | some db => simp [list_payments, get_documents, dbAppendOnly_refl]

theorem list_trainers_append_only (db? : Option DB) :
    dbAppendOnly db? (list_trainers db?).2 = true := by
  cases db? with
  | none => simp [list_trainers, get_documents, dbAppendOnly]
  | some db => simp [list_trainers, get_documents, dbAppendOnly_refl]

theorem list_members_append_only (db? : Option DB) :
    dbAppendOnly db? (list_members db?).2 = true := by
  cases db? with
  | none => simp [list_members, get_documents, dbAppendOnly]
  | some db => simp [list_members, get_documents, dbAppendOnly_refl]

/-- C8: every operation of the system either appends new documents to the
store or leaves it exactly unchanged; no stored document is ever modified
or deleted. -/
theorem c8_every_operation_append_only (areq : AuthRequest) (pdata : PlanCreate)
    (cdata : ClassCreate) (breq : BookingRequest) (wdata : WorkoutLogCreate)
    (creq : CheckInRequest) (paydata : PaymentCreate) (tdata : TrainerCreate)
    (mdata : MemberCreate) (now1 now2 : String) (mi ci da : Option String)
    (db? : Option DB) :
    dbAppendOnly db? (login areq db?).2 = true ∧
    dbAppendOnly db? (create_plan pdata db?).2 = true ∧
    dbAppendOnly db? (create_class cdata db?).2 = true ∧
    dbAppendOnly db? (book_class breq db?).2 = true ∧
    dbAppendOnly db? (create_workout wdata db?).2 = true ∧
    dbAppendOnly db? (check_in creq now1 db?).2 = true ∧
    dbAppendOnly db? (create_payment paydata now2 db?).2 = true ∧
    dbAppendOnly db? (create_trainer tdata db?).2 = true ∧
    dbAppendOnly db? (create_member mdata db?).2 = true ∧
    dbAppendOnly db? (list_plans db?).2 = true ∧
    dbAppendOnly db? (list_classes db?).2 = true ∧
    dbAppendOnly db? (list_bookings mi ci db?).2 = true ∧
    dbAppendOnly db? (list_workouts mi da db?).2 = true ∧
    dbAppendOnly db? (list_checkins mi db?).2 = true ∧
    dbAppendOnly db? (list_payments mi db?).2 = true ∧
    dbAppendOnly db? (list_trainers db?).2 = true ∧
    dbAppendOnly db? (list_members db?).2 = true :=
  ⟨login_append_only areq db?, create_plan_append_only pdata db?,
   create_class_append_only cdata db?, book_class_append_only breq db?,
   create_workout_append_only wdata db?, check_in_append_only creq now1 db?,
   create_payment_append_only paydata now2 db?, create_trainer_append_only tdata db?,
   create_member_append_only mdata db?, list_plans_append_only db?,
   list_classes_append_only db?, list_bookings_append_only mi ci db?,
   list_workouts_append_only mi da db?, list_checkins_append_only mi db?,
   list_payments_append_only mi db?, list_trainers_append_only db?,
   list_members_append_only db?⟩

/-- C1 witness: a concrete class of capacity 2 admits exactly the first two
sequential bookings and rejects the third. -/
theorem c1_witness :
    (∀ k, k < 2 → ∃ id, book_step "5" (fun n => toString n) k c1WitDB = .ok id) ∧
    book_step "5" (fun n => toString n) 2 c1WitDB = .error .classFull :=
  c1_exactly_capacity_bookings c1WitDB "5" (fun n => toString n) 2 5 c1WitDoc
    (by decide) (by decide) (by decide) (by decide) (by decide)

/-- C2 witness: a concrete full class (capacity 1, one booked booking) is
rejected with ClassFull and the store is unchanged. -/
theorem c2_witness :
    book_class { member_id := "m2", class_id := "0" } (some c2WitDB) =
      (.error .classFull, some c2WitDB) :=
  c2_class_full_leaves_store_unchanged { member_id := "m2", class_id := "0" }
    c2WitDB (by decide)

/-- C3 (amended) witness: booking against the malformed identifier "x" on an
empty store succeeds and creates the booking. -/
theorem c3_amended_witness :
    book_class { member_id := "m1", class_id := "x" } (some { docs := [], nextId := 0 }) =
      (.ok "0",
       some { docs := [("booking", { oid := 0, fields := bookingRec "m1" "x" "booked" })],
              nextId := 1 }) :=
  c3_missing_class_books_below_9999 "m1" "x" { docs := [], nextId := 0 }
    (by decide) (by decide)

/-- C4 witness: a concrete class with a free slot admits the booking,
appending exactly one booked record and returning its identifier. -/
theorem c4_witness :
    book_class { member_id := "m1", class_id := "0" } (some c4WitDB) =
      (.ok "1",
       some { docs := c4WitDB.docs ++
                [("booking", { oid := 1, fields := bookingRec "m1" "0" "booked" })],
              nextId := 2 }) :=
  c4_success_creates_one_booking { member_id := "m1", class_id := "0" } c4WitDB (by decide)

/-- C5 witness: adding a canceled booking for the class and a booked booking
for a different class leaves the admission decision identical. -/
theorem c5_witness :
    booking_admitted { member_id := "m2", class_id := "0" } c5WitDB1 =
      booking_admitted { member_id := "m2", class_id := "0" } c5WitDB2 :=
  c5_admission_depends_only_on_booked_count { member_id := "m2", class_id := "0" }
    c5WitDB1 c5WitDB2 (by decide) (by decide)

/-- C6 (amended) witness: create-then-list on an empty store returns exactly
the new record with its non-empty generated identifier. -/
theorem c6_witness :
    ∃ id db1,
      create_document "booking" (bookingRec "m1" "c1" "booked")
          (some { docs := [], nextId := 0 }) = .ok (id, db1) ∧
      list_documents "booking" [("class_id", Value.vStr "c1")] (some db1) =
        .ok [("_id", Value.vStr id) :: bookingRec "m1" "c1" "booked"] ∧
      id ≠ "" :=
  c6_create_then_list_roundtrip "booking" (bookingRec "m1" "c1" "booked")
    [("class_id", Value.vStr "c1")] { docs := [], nextId := 0 }
    (by decide) (by simp [colDocs])

/-- C10 witness: a concrete class creation with capacity 3 succeeds, and the
theorem yields that the stored capacity is 3 ≥ 1. -/
theorem c10_witness :
    1 ≤ ({ title := "Yoga", start_time := "s", end_time := "e", capacity := 3 } : ClassCreate).capacity ∧
    ∃ f, gymclassRec? "Yoga" none "s" "e" 3 none = some f ∧
         f.lookup "capacity" = some (Value.vInt 3) ∧
         (some c10WitDB : Option DB) =
           some (DB.insertDoc { docs := [], nextId := 0 } "gymclass" f).2 :=
  c10_default_capacity_twenty.2
    { title := "Yoga", start_time := "s", end_time := "e", capacity := 3 }
    { docs := [], nextId := 0 } "0" (some c10WitDB) rfl
